import Mathlib

/-!
Shallow embedding of the Web_larek domain model (`src/types/index.ts`):
item records, the fake order-validating API, the catalog/basket
collections, and the popup form fields, together with theorems about the
order validator, collection mutation, and form validity.

Numbers in the source are JS numbers; every value the program actually
stores in them is an integer (prices 0..9, totals), so they are modelled
as `Int`.  JS `undefined` for an optional/uninitialized field is modelled
as `Option _` with `none` for `undefined`.
-/

set_option autoImplicit false

namespace WebLarek

/-- `IItemModel` (lines 5-12): plain product record. -/
structure IItemModel where
  id : String
  name : String
  price : Int
  category : String
  image : String
  description : String
deriving DecidableEq

/-- `PaymentType` (line 90). -/
inductive PaymentType where
  | offline
  | online
deriving DecidableEq

/-- `IOrderInfo` (lines 92-99).  `address?: string` is optional, hence
`Option String`; an absent address is `none`, an empty one `some ""`. -/
structure IOrderInfo where
  payment : PaymentType
  email : String
  phone : String
  address : Option String
  total : Int
  items : List String
deriving DecidableEq

/-- `OrderPostResponse` (line 88). -/
structure OrderPostResponse where
  id : String
  total : Int
deriving DecidableEq

/-- Result of `FakeItemsAPI.postOrder`: either an `OrderPostResponse` or an
`ErrorResponse {error: string}` (lines 88-89, 103). -/
inductive PostOrderResult where
  | ok (response : OrderPostResponse)
  | error (message : String)
deriving DecidableEq

namespace FakeItemsAPI

/-- `FakeItemsAPI.total` (line 136). -/
def total : Int := 10

/-- `FakeItemsAPI.data` (lines 137-148): the ten canonical items, id `i`
priced `i`. -/
def data : List IItemModel :=
  [ ⟨"0", "Товар 0", 0, "Категория 0", "Image 0.jpg", "Описание 0"⟩,
    ⟨"1", "Товар 1", 1, "Категория 1", "Image 1.jpg", "Описание 1"⟩,
    ⟨"2", "Товар 2", 2, "Категория 2", "Image 2.jpg", "Описание 2"⟩,
    ⟨"3", "Товар 3", 3, "Категория 3", "Image 3.jpg", "Описание 3"⟩,
    ⟨"4", "Товар 4", 4, "Категория 4", "Image 4.jpg", "Описание 4"⟩,
    ⟨"5", "Товар 5", 5, "Категория 5", "Image 5.jpg", "Описание 5"⟩,
    ⟨"6", "Товар 6", 6, "Категория 6", "Image 6.jpg", "Описание 6"⟩,
    ⟨"7", "Товар 7", 7, "Категория 7", "Image 7.jpg", "Описание 7"⟩,
    ⟨"8", "Товар 8", 8, "Категория 8", "Image 8.jpg", "Описание 8"⟩,
    ⟨"9", "Товар 9", 9, "Категория 9", "Image 9.jpg", "Описание 9"⟩ ]

/-- Truthiness of `!orderInfo.address` (line 165): `undefined` and the
empty string are the only falsy values an `address?: string` can hold. -/
def addressMissing : Option String → Bool
  | none => true
  | some s => s = ""

/-- One `this.data.some(item => item.id === orderedItemId)` test
(line 171). -/
def idExists (data : List IItemModel) (id : String) : Bool :=
  data.any fun item => item.id = id

/-- The existence loop of `postOrder` (lines 170-175): walks `items` in
sequence order and returns the first id absent from `data`, if any. -/
def firstMissingId (data : List IItemModel) : List String → Option String
  | [] => none
  | id :: rest =>
      if idExists data id then firstMissingId data rest else some id

/-- `this.data.find(item => item.id === itemId)` followed by
`item?.price || 0` (lines 179-180): the found item's price, where JS `||`
maps a falsy price (only `0` among integers) to `0`, and a missed lookup
also to `0`. -/
def itemPriceOrZero (data : List IItemModel) (id : String) : Int :=
  match data.find? (fun item => item.id = id) with
  | some item => if item.price = 0 then 0 else item.price
  | none => 0

/-- `calculatedTotal` (lines 178-181): reduce over `items` summing
`itemPriceOrZero`. -/
def calculatedTotal (data : List IItemModel) (items : List String) : Int :=
  items.foldl (fun sum itemId => sum + itemPriceOrZero data itemId) 0

/-- `FakeItemsAPI.postOrder` (lines 163-192).  `data` is the `this.data`
field of the instance.  The address check, then the existence loop, then
the total check, each returning immediately on failure; on success the
fixed order id with the request's total. -/
def postOrder (data : List IItemModel) (orderInfo : IOrderInfo) :
    PostOrderResult :=
  if addressMissing orderInfo.address then
    .error "Не указан адрес"
  else
    match firstMissingId data orderInfo.items with
    | some missingId => .error ("Товар с id " ++ missingId ++ " не найден")
    | none =>
        if calculatedTotal data orderInfo.items ≠ orderInfo.total then
          .error "Неверная сумма заказа"
        else
          .ok ⟨"test-order-id", orderInfo.total⟩

end FakeItemsAPI

end WebLarek

namespace WebLarek

open FakeItemsAPI

/-- C1: for every canonical item list and every order request whose
address is absent or empty, `postOrder` rejects with the address-missing
error only, whatever the items and the total are: the later checks never
influence the result. -/
theorem postOrder_address_first (data : List IItemModel) (req : IOrderInfo)
    (h : req.address = none ∨ req.address = some "") :
    postOrder data req = .error "Не указан адрес" := by
  have hmiss : addressMissing req.address = true := by
    rcases h with h | h <;> simp [h, addressMissing]
  simp [postOrder, hmiss]

/-- Witness for C1: an order with empty address, an unknown item id and a
wrong total is rejected with the address error only. -/
theorem postOrder_address_first_witness :
    postOrder FakeItemsAPI.data
        ⟨.online, "a@b.c", "+7", some "", 12345, ["99"]⟩ =
      .error "Не указан адрес" :=
  postOrder_address_first FakeItemsAPI.data
    ⟨.online, "a@b.c", "+7", some "", 12345, ["99"]⟩ (Or.inr rfl)

/-- On a prefix all of whose ids exist, the existence loop moves on. -/
theorem firstMissingId_append_of_all_exist (data : List IItemModel)
    (pre rest : List String) (hpre : ∀ x ∈ pre, idExists data x = true) :
    firstMissingId data (pre ++ rest) = firstMissingId data rest := by
  induction pre with
  | nil => rfl
  | cons y ys ih =>
      have hy : idExists data y = true := hpre y (by simp)
      simp only [List.cons_append, firstMissingId, hy, if_true]
      exact ih fun x hx => hpre x (by simp [hx])

/-- C2: for every canonical item list and every order request whose
address passes the address check, if the items sequence splits as
`pre ++ id :: post` where every id of `pre` exists in the canonical
list and `id` does not, then `postOrder` rejects naming exactly that
first missing id, whatever the total and the remaining ids are. -/
theorem postOrder_first_missing_item (data : List IItemModel)
    (req : IOrderInfo) (pre : List String) (id : String)
    (post : List String) (haddr : addressMissing req.address = false)
    (hsplit : req.items = pre ++ id :: post)
    (hpre : ∀ x ∈ pre, idExists data x = true)
    (hid : idExists data id = false) :
    postOrder data req = .error ("Товар с id " ++ id ++ " не найден") := by
  have hfirst : firstMissingId data req.items = some id := by
    rw [hsplit, firstMissingId_append_of_all_exist data pre _ hpre]
    simp [firstMissingId, hid]
  simp [postOrder, haddr, hfirst]

/-- Witness for C2: valid address, items `["2", "99", "99"]` and an
arbitrary wrong total reject with the not-found error naming `"99"`. -/
theorem postOrder_first_missing_item_witness :
    postOrder FakeItemsAPI.data
        ⟨.online, "a@b.c", "+7", some "Ленина 1", 7, ["2", "99", "99"]⟩ =
      .error "Товар с id 99 не найден" :=
  postOrder_first_missing_item FakeItemsAPI.data
    ⟨.online, "a@b.c", "+7", some "Ленина 1", 7, ["2", "99", "99"]⟩
    ["2"] "99" ["99"] rfl rfl (by decide) (by decide)

/-- The canonical price of an id: price of the first item of `data`
carrying it (the spec's "canonical price", written from the spec's
words for comparison with the code's `itemPriceOrZero`). -/
def canonicalPrice (data : List IItemModel) (id : String) : Int :=
  match data.find? (fun item => item.id = id) with
  | some item => item.price
  | none => 0

/-- The spec's `expectedTotal`: sum over `items` in listed order of the
canonical price of each occurrence. -/
def expectedTotal (data : List IItemModel) (items : List String) : Int :=
  (items.map (canonicalPrice data)).sum

/-- `item?.price || 0` equals the canonical price: `0` is the only falsy
integer and it is its own replacement. -/
theorem itemPriceOrZero_eq_canonicalPrice (data : List IItemModel)
    (id : String) : itemPriceOrZero data id = canonicalPrice data id := by
  unfold itemPriceOrZero canonicalPrice
  cases data.find? (fun item => item.id = id) with
  | none => rfl
  | some item =>
      by_cases h : item.price = 0 <;> simp [h]

/-- The code's reduce equals the spec's sum of canonical prices. -/
theorem calculatedTotal_eq_expectedTotal (data : List IItemModel)
    (items : List String) :
    calculatedTotal data items = expectedTotal data items := by
  suffices h : ∀ init : Int,
      items.foldl (fun sum itemId => sum + itemPriceOrZero data itemId) init
        = init + (items.map (canonicalPrice data)).sum by
    simpa [calculatedTotal, expectedTotal] using h 0
  induction items with
  | nil => simp
  | cons y ys ih =>
      intro init
      rw [List.map_cons, List.sum_cons, List.foldl_cons, ih,
        itemPriceOrZero_eq_canonicalPrice]
      ring

/-- If every id of `items` exists, the existence loop finds nothing. -/
theorem firstMissingId_eq_none_of_all_exist (data : List IItemModel)
    (items : List String) (hall : ∀ x ∈ items, idExists data x = true) :
    firstMissingId data items = none := by
  have h := firstMissingId_append_of_all_exist data items [] hall
  simpa [firstMissingId] using h

/-- C3: for every canonical item list and every order request whose
address passes the address check and all of whose item ids exist,
`postOrder` rejects with the total-mismatch error exactly when the sum of
the canonical prices of the listed ids (duplicates each counted) differs
from the request's total, and otherwise accepts with an order id and the
request's total. -/
theorem postOrder_total_check (data : List IItemModel) (req : IOrderInfo)
    (haddr : addressMissing req.address = false)
    (hall : ∀ x ∈ req.items, idExists data x = true) :
    postOrder data req =
      if expectedTotal data req.items ≠ req.total then
        .error "Неверная сумма заказа"
      else
        .ok ⟨"test-order-id", req.total⟩ := by
  have hnone := firstMissingId_eq_none_of_all_exist data req.items hall
  simp only [postOrder, haddr, Bool.false_eq_true, if_false, hnone,
    calculatedTotal_eq_expectedTotal]

/-- Witness for C3: items `["3", "3"]` with total `6` are accepted and
with total `3` rejected as a total mismatch; items `["2", "5"]` with
total `7` are accepted. -/
theorem postOrder_total_check_witness :
    postOrder FakeItemsAPI.data
        ⟨.online, "a@b.c", "+7", some "Ленина 1", 6, ["3", "3"]⟩ =
        .ok ⟨"test-order-id", 6⟩ ∧
    postOrder FakeItemsAPI.data
        ⟨.online, "a@b.c", "+7", some "Ленина 1", 3, ["3", "3"]⟩ =
        .error "Неверная сумма заказа" ∧
    postOrder FakeItemsAPI.data
        ⟨.offline, "a@b.c", "+7", some "Ленина 1", 7, ["2", "5"]⟩ =
        .ok ⟨"test-order-id", 7⟩ := by
  refine ⟨?_, ?_, ?_⟩
  · rw [postOrder_total_check FakeItemsAPI.data
      ⟨.online, "a@b.c", "+7", some "Ленина 1", 6, ["3", "3"]⟩ rfl
      (by decide)]
    decide
  · rw [postOrder_total_check FakeItemsAPI.data
      ⟨.online, "a@b.c", "+7", some "Ленина 1", 3, ["3", "3"]⟩ rfl
      (by decide)]
    decide
  · rw [postOrder_total_check FakeItemsAPI.data
      ⟨.offline, "a@b.c", "+7", some "Ленина 1", 7, ["2", "5"]⟩ rfl
      (by decide)]
    decide

/-- C10: for every canonical item list and every order request whose
address passes the address check and whose items sequence is empty, the
recomputed total is `0` and the request is accepted exactly when its
total is `0`. -/
theorem postOrder_empty_items (data : List IItemModel) (req : IOrderInfo)
    (haddr : addressMissing req.address = false)
    (hempty : req.items = []) :
    expectedTotal data req.items = 0 ∧
    postOrder data req =
      if req.total = 0 then .ok ⟨"test-order-id", req.total⟩
      else .error "Неверная сумма заказа" := by
  constructor
  · simp [hempty, expectedTotal]
  · rw [postOrder_total_check data req haddr (by simp [hempty])]
    by_cases h : req.total = 0
    · simp [h, hempty, expectedTotal]
    · simp [h, hempty, expectedTotal, Ne.symm h]

/-- Witness for C10: an order with no items and total `0` is confirmed;
with total `1` it is rejected as a total mismatch. -/
theorem postOrder_empty_items_witness :
    postOrder FakeItemsAPI.data
        ⟨.online, "a@b.c", "+7", some "Ленина 1", 0, []⟩ =
        .ok ⟨"test-order-id", 0⟩ ∧
    postOrder FakeItemsAPI.data
        ⟨.online, "a@b.c", "+7", some "Ленина 1", 1, []⟩ =
        .error "Неверная сумма заказа" := by
  constructor
  · have h := postOrder_empty_items FakeItemsAPI.data
      ⟨.online, "a@b.c", "+7", some "Ленина 1", 0, []⟩ rfl rfl
    simpa using h.2
  · have h := postOrder_empty_items FakeItemsAPI.data
      ⟨.online, "a@b.c", "+7", some "Ленина 1", 1, []⟩ rfl rfl
    simpa using h.2

/-- `BasketItem` (lines 26-30): identity and price only, copied from the
raw record by the `BaseItem` constructor. -/
structure BasketItem where
  id : String
  name : String
  price : Int
deriving DecidableEq

/-- `new BasketItem(data)` (lines 19-23, 27-29). -/
def BasketItem.ofModel (d : IItemModel) : BasketItem :=
  ⟨d.id, d.name, d.price⟩

/-- `CatalogItem` (lines 32-43): identity, price and display fields. -/
structure CatalogItem where
  id : String
  name : String
  price : Int
  category : String
  image : String
  description : String
deriving DecidableEq

/-- `new CatalogItem(data)` (lines 37-42). -/
def CatalogItem.ofModel (d : IItemModel) : CatalogItem :=
  ⟨d.id, d.name, d.price, d.category, d.image, d.description⟩

/-- The JS runtime error raised when a member of `undefined` is
accessed (`this._items.push` / `.splice` on an uninitialized field). -/
inductive JsRuntimeError where
  | typeError
deriving DecidableEq

/-- State of the abstract `List<T>` base class (lines 62-69): the fields
`total` and `_items` are declared without initializers and no constructor
in the chain assigns them, so after construction both hold `undefined`,
modelled as `none`. -/
structure ListState (T : Type) where
  total : Option Int
  _items : Option (List T)
deriving DecidableEq

namespace BasketList

/-- `new BasketList()` (line 123): no constructor anywhere in the chain
initializes `total` or `_items`, so both are `undefined`. -/
def new : ListState BasketItem := ⟨none, none⟩

/-- `BasketList.addItem` (lines 124-126): `this._items.push(item)`.  On
an uninitialized `_items` this is a member access on `undefined` and
throws a TypeError; otherwise it appends at the end. -/
def addItem (s : ListState BasketItem) (item : BasketItem) :
    Except JsRuntimeError (ListState BasketItem) :=
  match s._items with
  | none => .error .typeError
  | some xs => .ok { s with _items := some (xs ++ [item]) }

/-- `Array.prototype.splice(start, 1)`: the normalized start position —
a negative `start` counts from the end clamped at `0`, a `start` past the
end is clamped to the length (where nothing is removed). -/
def spliceStart (len : Nat) (i : Int) : Nat :=
  if i < 0 then ((len : Int) + i).toNat else min i.toNat len

/-- `this._items.splice(itemIndex, 1)` (line 129): removes at most one
element, the one at the normalized start position; it never fails on an
out-of-range index. -/
def spliceDeleteOne {α : Type} (items : List α) (i : Int) : List α :=
  let s := spliceStart items.length i
  items.take s ++ items.drop (s + 1)

/-- `BasketList.delete` (lines 128-130): `splice(itemIndex, 1)`, a
TypeError only when `_items` is still `undefined`. -/
def delete (s : ListState BasketItem) (itemIndex : Int) :
    Except JsRuntimeError (ListState BasketItem) :=
  match s._items with
  | none => .error .typeError
  | some xs => .ok { s with _items := some (spliceDeleteOne xs itemIndex) }

end BasketList

/-- Counterexample to C4: on the basket `[A, B, C]`, `delete 3` does not
fail with any out-of-range condition — it returns the basket unchanged,
because `splice` clamps the start position to the length. -/
theorem basketList_delete_oob_counterexample :
    BasketList.delete
        ⟨none, some [⟨"a", "A", 1⟩, ⟨"b", "B", 2⟩, ⟨"c", "C", 3⟩]⟩ 3 =
      .ok ⟨none, some [⟨"a", "A", 1⟩, ⟨"b", "B", 2⟩, ⟨"c", "C", 3⟩]⟩ :=
  rfl

/-- C4 (amended): on a basket whose items are initialized, `delete`
never fails: with `0 ≤ index < items.length` it removes exactly the
element at `index`, shifting all later elements one position earlier
(the result is `take index ++ drop (index + 1)`, one element shorter);
with `index ≥ items.length` it leaves the sequence unchanged and signals
nothing; with `index < 0` it removes the element at position
`items.length + index` clamped at `0`, as `splice` counts a negative
start from the end. -/
theorem basketList_delete_splice (t : Option Int) (xs : List BasketItem)
    (i : Int) :
    BasketList.delete ⟨t, some xs⟩ i =
      .ok ⟨t, some (BasketList.spliceDeleteOne xs i)⟩ ∧
    (0 ≤ i → i < (xs.length : Int) →
      BasketList.spliceDeleteOne xs i =
        xs.take i.toNat ++ xs.drop (i.toNat + 1) ∧
      (BasketList.spliceDeleteOne xs i).length = xs.length - 1) ∧
    ((xs.length : Int) ≤ i → BasketList.spliceDeleteOne xs i = xs) ∧
    (i < 0 →
      BasketList.spliceDeleteOne xs i =
        xs.take ((xs.length : Int) + i).toNat ++
          xs.drop (((xs.length : Int) + i).toNat + 1)) := by
  refine ⟨rfl, ?_, ?_, ?_⟩
  · intro h0 hlt
    have hnneg : ¬ i < 0 := not_lt.mpr h0
    have hs : BasketList.spliceStart xs.length i = i.toNat := by
      have : i.toNat ≤ xs.length := by omega
      simp [BasketList.spliceStart, hnneg, Nat.min_eq_left this]
    refine ⟨by simp [BasketList.spliceDeleteOne, hs], ?_⟩
    have hlen : i.toNat < xs.length := by omega
    simp [BasketList.spliceDeleteOne, hs, List.length_take,
      List.length_drop]
    omega
  · intro hge
    have hnneg : ¬ i < 0 := by omega
    have hs : BasketList.spliceStart xs.length i = xs.length := by
      have : xs.length ≤ i.toNat := by omega
      simp [BasketList.spliceStart, hnneg, Nat.min_eq_right this]
    have hdrop : xs.drop (xs.length + 1) = [] := by
      apply List.drop_eq_nil_of_le
      omega
    simp [BasketList.spliceDeleteOne, hs, hdrop]
  · intro hneg
    simp [BasketList.spliceDeleteOne, BasketList.spliceStart, hneg]

/-- Witness for C4 (amended): `delete 1` on the basket `[A, B, C]`
yields `[A, C]`. -/
theorem basketList_delete_splice_witness :
    BasketList.delete
        ⟨none, some [⟨"a", "A", 1⟩, ⟨"b", "B", 2⟩, ⟨"c", "C", 3⟩]⟩ 1 =
      .ok ⟨none, some [⟨"a", "A", 1⟩, ⟨"c", "C", 3⟩]⟩ ∧
    BasketList.spliceDeleteOne
        [(⟨"a", "A", 1⟩ : BasketItem), ⟨"b", "B", 2⟩, ⟨"c", "C", 3⟩] 1 =
      [⟨"a", "A", 1⟩, ⟨"c", "C", 3⟩] := by
  have h := basketList_delete_splice none
    [(⟨"a", "A", 1⟩ : BasketItem), ⟨"b", "B", 2⟩, ⟨"c", "C", 3⟩] 1
  have h2 := (h.2.1 (by decide) (by decide)).1
  constructor
  · rw [h.1, h2]
    rfl
  · rw [h2]
    rfl

/-- C6 (as a code bug): `_items` is declared in the `List<T>` base class
without an initializer and no constructor in the `BasketList` chain
assigns it, so a newly constructed basket's items sequence is
`undefined` — it does not exist with length `0` — and the first
`addItem` throws a TypeError instead of appending. -/
theorem basketList_new_uninitialized :
    BasketList.new._items = none ∧
    BasketList.new._items ≠ some [] ∧
    BasketList.addItem BasketList.new ⟨"1", "Товар 1", 1⟩ =
      .error .typeError :=
  ⟨rfl, by decide, rfl⟩

/-- The `IList<D>` record an `IListAPI<D>` collaborator returns
(lines 49-56). -/
structure IListData (D : Type) where
  total : Int
  items : List D
deriving DecidableEq

namespace CatalogList

/-- `new CatalogList(api)` (lines 106-109): the constructors only store
the item constructor and the api; `total` and `_items` stay
uninitialized. -/
def new : ListState CatalogItem := ⟨none, none⟩

/-- `CatalogList.load` (lines 116-120).  The collaborator outcome is the
`apiResult` argument: a rejected promise makes `await` throw before
either assignment runs, so the state is returned unchanged with the
failure; on success `total` and `_items` are replaced with the reported
total and one constructed `CatalogItem` per raw item, in order. -/
def load (s : ListState CatalogItem)
    (apiResult : Except String (IListData IItemModel)) :
    ListState CatalogItem × Except String Unit :=
  match apiResult with
  | .error e => (s, .error e)
  | .ok d => (⟨some d.total, some (d.items.map CatalogItem.ofModel)⟩, .ok ())

/-- `CatalogList.itemClick` (lines 111-114): logs the selection message
and returns; no bounds check, no state change. -/
def itemClick (s : ListState CatalogItem) (itemIndex : Int) :
    ListState CatalogItem × String :=
  (s, "Открытие карточки с товаром " ++ toString itemIndex)

end CatalogList

/-- C5: `load` is atomic — on a successful collaborator response it
replaces the prior contents with the reported total and exactly one
constructed item per raw item in the same order, and on a collaborator
failure the call fails and the state is returned unchanged. -/
theorem catalogList_load_atomic (s : ListState CatalogItem)
    (r : Except String (IListData IItemModel)) :
    (∀ d, r = .ok d →
      CatalogList.load s r =
        (⟨some d.total, some (d.items.map CatalogItem.ofModel)⟩, .ok ())) ∧
    (∀ e, r = .error e → CatalogList.load s r = (s, .error e)) := by
  constructor
  · intro d hd
    rw [hd]
    rfl
  · intro e he
    rw [he]
    rfl

/-- Witness for C5: loading the fake collaborator's response populates
total `10` and the ten constructed items; a failing collaborator leaves
the fresh state unchanged and propagates the failure. -/
theorem catalogList_load_atomic_witness :
    CatalogList.load CatalogList.new (.ok ⟨10, FakeItemsAPI.data⟩) =
      (⟨some 10, some (FakeItemsAPI.data.map CatalogItem.ofModel)⟩,
        .ok ()) ∧
    CatalogList.load CatalogList.new (.error "NetworkError") =
      (CatalogList.new, .error "NetworkError") :=
  ⟨(catalogList_load_atomic CatalogList.new
      (.ok ⟨10, FakeItemsAPI.data⟩)).1 ⟨10, FakeItemsAPI.data⟩ rfl,
   (catalogList_load_atomic CatalogList.new
      (.error "NetworkError")).2 "NetworkError" rfl⟩

/-- Counterexample to C9: on the loaded ten-item catalog, `itemClick`
with index `100` does not validate the bound — it proceeds normally,
returning the unchanged state and the selection log message. -/
theorem catalogList_itemClick_counterexample :
    (FakeItemsAPI.data.map CatalogItem.ofModel).length = 10 ∧
    CatalogList.itemClick
        ⟨some 10, some (FakeItemsAPI.data.map CatalogItem.ofModel)⟩ 100 =
      (⟨some 10, some (FakeItemsAPI.data.map CatalogItem.ofModel)⟩,
        "Открытие карточки с товаром 100") := by
  constructor
  · decide
  · rfl

/-- C9 (amended): `itemClick` performs no index validation at all — for
every catalog state and every index, in range or not, it proceeds,
merely signalling the selection message, and performs no catalog
mutation: the state component of the result is the input state. -/
theorem catalogList_itemClick_no_mutation (s : ListState CatalogItem)
    (i : Int) :
    (CatalogList.itemClick s i).1 = s ∧
    (CatalogList.itemClick s i).2 =
      "Открытие карточки с товаром " ++ toString i :=
  ⟨rfl, rfl⟩

/-- JS `String.prototype.trim` as called at line 224: strips whitespace
from both ends, modelled on the character list. -/
def jsTrim (s : String) : String :=
  ⟨((s.data.dropWhile Char.isWhitespace).reverse.dropWhile
      Char.isWhitespace).reverse⟩

/-- The `IField` variants (lines 199-215), tagged by `fieldType`:
`editText` carries `value` and `hint`, `radioButton` carries `choices`
and the optional `selected?: string` (`none` for `undefined`). -/
inductive IField where
  | editText (fieldName hint value : String)
  | radioButton (fieldName : String) (choices : List String)
      (selected : Option String)
deriving DecidableEq

/-- The `fieldName` property common to both variants (line 201). -/
def IField.fieldName : IField → String
  | .editText name _ _ => name
  | .radioButton name _ _ => name

/-- `isValid` of the two factory closures: line 224 is
`this.value.trim().length > 0`, line 234 is `this.selected !== ''`
(note: `undefined !== ''` is `true` in JS, so an absent `selected`
passes this check). -/
def IField.isValid : IField → Bool
  | .editText _ _ value => 0 < (jsTrim value).length
  | .radioButton _ _ selected => selected ≠ some ""

/-- `createEditTextField` (lines 218-226): `value` starts empty. -/
def createEditTextField (fieldName hint : String) : IField :=
  .editText fieldName hint ""

/-- `createRadioButtonField` (lines 228-236): `selected` starts as the
empty string. -/
def createRadioButtonField (fieldName : String) (choices : List String) :
    IField :=
  .radioButton fieldName choices (some "")

/-- Field validity as the spec words it for a choice field: `selected`
is set and non-empty.  Written from the spec for comparison with the
code's `IField.isValid`. -/
def choiceValidSpec : Option String → Bool
  | some s => s ≠ ""
  | none => false

/-- A string has positive length exactly when it is non-empty. -/
theorem decide_length_pos_iff_ne_empty (s : String) :
    (decide (0 < s.length) = true) ↔ s ≠ "" := by
  rw [decide_eq_true_iff]
  cases s with
  | mk l => simp [String.length, String.ext_iff, Nat.pos_iff_ne_zero]

/-- Counterexample to C7: a choice field whose `selected` is absent —
a value the optional `selected?: string` admits — is reported valid by
the code's `this.selected !== ''` check, although "selected is set and
non-empty" is false for it. -/
theorem radioButton_no_selected_counterexample :
    IField.isValid
        (.radioButton "Способ оплаты" ["Онлайн", "При получении"] none) =
      true ∧
    choiceValidSpec none = false :=
  ⟨rfl, rfl⟩

/-- C7 (amended): a TextField is valid exactly when its trimmed value is
non-empty (so `"  "` is invalid and `"x"` is valid), and a ChoiceField
is valid exactly when `selected` differs from the empty string — the
factory starts `selected` at `''`, so a field on which no choice was
made is invalid, but a ChoiceField whose `selected` is absent is
reported valid. -/
theorem field_isValid_characterization :
    (∀ name hint value,
      (IField.editText name hint value).isValid = true ↔
        jsTrim value ≠ "") ∧
    (∀ name choices selected,
      (IField.radioButton name choices selected).isValid = true ↔
        selected ≠ some "") ∧
    (∀ name hint, (createEditTextField name hint).isValid = false) ∧
    (∀ name choices,
      (createRadioButtonField name choices).isValid = false) ∧
    (IField.editText "Адрес доставки" "Введите адрес" "  ").isValid =
      false ∧
    (IField.editText "Адрес доставки" "Введите адрес" "x").isValid =
      true := by
  refine ⟨?_, ?_, ?_, ?_, by decide, by decide⟩
  · intro name hint value
    exact decide_length_pos_iff_ne_empty (jsTrim value)
  · intro name choices selected
    simp [IField.isValid]
  · intro name hint
    rfl
  · intro name choices
    rfl

/-- `OrderPopup` (lines 245-276): a button caption and the ordered
fields of the form. -/
structure OrderPopup where
  bottomButtonText : String
  fields : List IField
deriving DecidableEq

/-- `OrderPopup.isValid` (lines 251-253): every field is valid. -/
def OrderPopup.isValid (p : OrderPopup) : Bool :=
  p.fields.all fun field => field.isValid

/-- The value each branch of the `getFormData` reduce assigns
(lines 257-264): the text value for `editText`, the `selected` choice —
possibly `undefined` — for `radioButton`; the two branches are
exhaustive over the tag. -/
def IField.formValue : IField → Option String
  | .editText _ _ value => some value
  | .radioButton _ _ selected => selected

/-- JS object property assignment `fieldsData[k] = v`: overwrites in
place when the key is present, appends otherwise. -/
def recordSet :
    List (String × Option String) → String → Option String →
      List (String × Option String)
  | [], k, v => [(k, v)]
  | kv :: rest, k, v =>
      if kv.1 = k then (k, v) :: rest else kv :: recordSet rest k v

/-- The reduce of `getFormData` (lines 256-266): fold the fields into a
record from field name to assigned value, starting from `{}`. -/
def collectValues (fields : List IField) : List (String × Option String) :=
  fields.foldl
    (fun fieldsData field =>
      recordSet fieldsData field.fieldName field.formValue) []

/-- Truthiness of the expression `this.isValid` at line 256: written
without parentheses it denotes the method itself, and a function object
is always truthy in JS, so the conjunction always evaluates to its
right-hand side. -/
def isValidMethodRefTruthy : Bool := true

/-- `OrderPopup.getFormData` (lines 255-267): `this.isValid && reduce`;
`none` would be the non-record falsy left operand, which is never
returned because the method reference is truthy. -/
def OrderPopup.getFormData (p : OrderPopup) :
    Option (List (String × Option String)) :=
  if isValidMethodRefTruthy then some (collectValues p.fields) else none

/-- Looking up the key just set finds the new value. -/
theorem lookup_recordSet_self (m : List (String × Option String))
    (k : String) (v : Option String) :
    List.lookup k (recordSet m k v) = some v := by
  induction m with
  | nil => simp [recordSet, List.lookup]
  | cons kv rest ih =>
      by_cases h : kv.1 = k
      · simp [recordSet, h, List.lookup]
      · have hb : (k == kv.1) = false :=
          beq_eq_false_iff_ne.mpr fun hk => h hk.symm
        simp [recordSet, h, List.lookup, hb, ih]

/-- Setting one key leaves every other key's lookup unchanged. -/
theorem lookup_recordSet_other (m : List (String × Option String))
    (k k' : String) (v : Option String) (h : k' ≠ k) :
    List.lookup k' (recordSet m k v) = List.lookup k' m := by
  induction m with
  | nil =>
      have hb : (k' == k) = false := beq_eq_false_iff_ne.mpr h
      simp [recordSet, List.lookup, hb]
  | cons kv rest ih =>
      by_cases hk : kv.1 = k
      · have hb : (k' == k) = false := beq_eq_false_iff_ne.mpr h
        have hb2 : (k' == kv.1) = (k' == k) := by rw [hk]
        simp [recordSet, hk, List.lookup, hb, hb2]
      · by_cases hk' : k' = kv.1
        · simp [recordSet, hk, List.lookup, hk']
        · have hb : (k' == kv.1) = false := beq_eq_false_iff_ne.mpr hk'
          simp [recordSet, hk, List.lookup, hb, ih]

/-- Folding in fields none of which carries a given name leaves that
name's lookup unchanged. -/
theorem lookup_collect_of_not_named (fs : List IField)
    (m : List (String × Option String)) (k : String)
    (h : ∀ g ∈ fs, g.fieldName ≠ k) :
    List.lookup k
        (fs.foldl
          (fun fieldsData field =>
            recordSet fieldsData field.fieldName field.formValue) m) =
      List.lookup k m := by
  induction fs generalizing m with
  | nil => rfl
  | cons g rest ih =>
      rw [List.foldl_cons, ih _ fun x hx => h x (by simp [hx]),
        lookup_recordSet_other]
      exact fun hk => h g (by simp) hk.symm

/-- A key present before the fold is still present after it. -/
theorem lookup_collect_isSome_mono (fs : List IField)
    (m : List (String × Option String)) (k : String)
    (h : (List.lookup k m).isSome = true) :
    (List.lookup k
        (fs.foldl
          (fun fieldsData field =>
            recordSet fieldsData field.fieldName field.formValue) m)).isSome
      = true := by
  induction fs generalizing m with
  | nil => exact h
  | cons g rest ih =>
      rw [List.foldl_cons]
      apply ih
      by_cases hk : k = g.fieldName
      · rw [hk, lookup_recordSet_self]
        rfl
      · rw [lookup_recordSet_other _ _ _ _ hk]
        exact h

/-- Every field's name is a key of the collected record. -/
theorem lookup_collect_isSome (fs : List IField)
    (m : List (String × Option String)) (f : IField) (hf : f ∈ fs) :
    (List.lookup f.fieldName
        (fs.foldl
          (fun fieldsData field =>
            recordSet fieldsData field.fieldName field.formValue) m)).isSome
      = true := by
  induction fs generalizing m with
  | nil => cases hf
  | cons g rest ih =>
      rw [List.foldl_cons]
      rcases List.mem_cons.mp hf with hfg | hmem
      · subst hfg
        apply lookup_collect_isSome_mono
        rw [lookup_recordSet_self]
        rfl
      · exact ih _ hmem

/-- With pairwise-distinct names, each field's name maps to exactly its
assigned value. -/
theorem lookup_collect_of_nodup (fs : List IField)
    (m : List (String × Option String)) (f : IField)
    (hnd : fs.Pairwise fun a b => a.fieldName ≠ b.fieldName)
    (hf : f ∈ fs) :
    List.lookup f.fieldName
        (fs.foldl
          (fun fieldsData field =>
            recordSet fieldsData field.fieldName field.formValue) m) =
      some f.formValue := by
  induction fs generalizing m with
  | nil => cases hf
  | cons g rest ih =>
      rw [List.foldl_cons]
      rcases List.mem_cons.mp hf with hfg | hmem
      · subst hfg
        rw [lookup_collect_of_not_named]
        · exact lookup_recordSet_self m f.fieldName f.formValue
        · intro x hx
          exact ((List.pairwise_cons.mp hnd).1 x hx).symm
      · exact ih _ (List.pairwise_cons.mp hnd).2 hmem

/-- C8: `getFormData` always returns the record the reduce builds — the
gate at line 256 references the validity check without invoking it, so
validity never influences the result — and that record has an entry for
every field's name; with pairwise-distinct names each field's name maps
to exactly its current value: the text value of an `editText`, the
selected choice of a `radioButton`. -/
theorem orderPopup_getFormData_collects (p : OrderPopup) :
    p.getFormData = some (collectValues p.fields) ∧
    (∀ field ∈ p.fields,
      (List.lookup (IField.fieldName field)
          (collectValues p.fields)).isSome = true) ∧
    ((p.fields.Pairwise fun a b => a.fieldName ≠ b.fieldName) →
      ∀ field ∈ p.fields,
        List.lookup (IField.fieldName field) (collectValues p.fields) =
          some (IField.formValue field)) := by
  refine ⟨rfl, ?_, ?_⟩
  · intro field hf
    exact lookup_collect_isSome p.fields [] field hf
  · intro hnd field hf
    exact lookup_collect_of_nodup p.fields [] field hnd hf

/-- The first order popup built at lines 329-339: a payment-type choice
field and a delivery-address text field. -/
def orderPopup1 : OrderPopup :=
  ⟨"Далее",
    [createRadioButtonField "Способ оплаты" ["Онлайн", "При получении"],
     createEditTextField "Адрес доставки" "Введите адрес"]⟩

/-- Witness for C8: the freshly built first order popup is invalid (no
payment choice, empty address), yet `getFormData` still returns the full
record, mapping each field name to its current (empty) value. -/
theorem orderPopup_getFormData_collects_witness :
    OrderPopup.isValid orderPopup1 = false ∧
    OrderPopup.getFormData orderPopup1 =
      some [("Способ оплаты", some ""), ("Адрес доставки", some "")] ∧
    List.lookup "Способ оплаты" (collectValues orderPopup1.fields) =
      some (some "") ∧
    List.lookup "Адрес доставки" (collectValues orderPopup1.fields) =
      some (some "") := by
  refine ⟨by decide, ?_, ?_, ?_⟩
  · rw [(orderPopup_getFormData_collects orderPopup1).1]
    rfl
  · exact (orderPopup_getFormData_collects orderPopup1).2.2 (by decide)
      (createRadioButtonField "Способ оплаты" ["Онлайн", "При получении"])
      (by decide)
  · exact (orderPopup_getFormData_collects orderPopup1).2.2 (by decide)
      (createEditTextField "Адрес доставки" "Введите адрес")
      (by decide)

end WebLarek
